import Mathlib

/-!
Shallow embedding of the feature-flag impact-analyzer agent (`src/agent.ts`).

Conventions of the embedding:
* JavaScript numbers are modelled as `ℚ` (all constants appearing in the
  analyzed code paths — 1.5, 2, 3, 0.3, 0.5, 0.7, 50, 100 — are exactly
  representable, and the claims concern order comparisons at such values).
* ISO-8601 timestamp strings order chronologically, so timestamps are `ℕ`.
* The SQLite tables of the Durable Object are modelled as lists in insertion
  order inside `AgentState`; `ORDER BY ts DESC LIMIT n` becomes a descending
  insertion sort followed by `List.take n`.
* `crypto.randomUUID()` and `new Date()` are environment inputs, passed as
  explicit `id`/`now` parameters.
* The external model call (`env.AI.run`) is an environment input `AiOutcome`:
  either the call succeeded with an optional response text, or it threw.
  `JSON.parse` on the extracted brace substring is an external library
  function, passed as a `jsonParse` parameter producing the parsed object
  shape the engine reads fields from.
* Anomaly messages are template strings interpolating one computed
  percentage; the embedding stores that interpolated value (`messagePct`)
  instead of rendering the final string.
-/

namespace FlagAnalyzer

/-- Severity values of `Anomaly.severity`: warning or critical. -/
inductive Severity where
  | warning
  | critical
deriving DecidableEq

/-- Anomaly type values of `Anomaly.type` from `types.ts`. -/
inductive AnomalyType where
  | error_spike
  | latency_spike
  | conversion_drop
  | rollback_recommended
deriving DecidableEq

/-- Flag record `FeatureFlag` from `types.ts`. -/
structure FeatureFlag where
  id : String
  name : String
  description : String
  enabled : Bool
  rolloutPercentage : ℚ
  targetEnvironment : String
  createdAt : ℕ
  updatedAt : ℕ
  tags : List String
  owner : String
deriving DecidableEq, Inhabited

/-- Change record `FlagChange` from `types.ts`.  `previousValue`/`newValue` are `any` in the
source; the analyzed code only ever reads `newValue?.rolloutPercentage`, so the
snapshots are modelled as optional flag states. `changeType` is a free string
(the core trusts the declared type). -/
structure FlagChange where
  id : String
  flagId : String
  flagName : String
  changeType : String
  previousValue : Option FeatureFlag
  newValue : Option FeatureFlag
  changedBy : String
  changedAt : ℕ
  environment : String
deriving DecidableEq, Inhabited

/-- Metric sample `ImpactMetrics` from `types.ts`. -/
structure ImpactMetrics where
  flagId : String
  timestamp : ℕ
  errorRate : ℚ
  latencyP50 : ℚ
  latencyP99 : ℚ
  requestCount : ℕ
  conversionRate : ℚ
  userSatisfactionScore : ℚ
deriving DecidableEq, Inhabited

/-- The nested `predictedImpact` object of `ImpactPrediction`. -/
structure PredictedImpact where
  errorRateChange : ℚ
  latencyChange : ℚ
  userImpactPercentage : ℚ
deriving DecidableEq, Inhabited

/-- Prediction record `ImpactPrediction` from `types.ts`.  `riskLevel` is kept as a string since
the `riskLevel` defaulting to "medium" accepts any model-supplied string. -/
structure ImpactPrediction where
  flagId : String
  flagName : String
  riskLevel : String
  riskScore : ℚ
  predictedImpact : PredictedImpact
  recommendations : List String
  reasoning : String
  confidence : ℚ
  generatedAt : ℕ
deriving DecidableEq, Inhabited

/-- Anomaly record `Anomaly` from `types.ts`.  `messagePct` is the percentage value the
source interpolates into the message template (rounded to one decimal when
rendered; the exact value is stored here). -/
structure Anomaly where
  id : String
  flagId : String
  flagName : String
  type : AnomalyType
  severity : Severity
  detectedAt : ℕ
  metrics : ImpactMetrics
  messagePct : ℚ
  resolved : Bool
deriving DecidableEq

/-- The SQLite tables of the Durable Object, as lists in insertion order. -/
structure AgentState where
  feature_flags : List FeatureFlag
  flag_changes : List FlagChange
  impact_metrics : List ImpactMetrics
  predictions : List ImpactPrediction
  anomalies : List Anomaly
deriving DecidableEq, Inhabited

/-! ### JavaScript helpers -/

/-- JavaScript `x || d` for an optional numeric field: `undefined` and `0`
are falsy (JSON cannot encode `NaN`), anything else passes through. -/
def jsOrNum (x : Option ℚ) (d : ℚ) : ℚ :=
  match x with
  | none => d
  | some v => if v = 0 then d else v

/-- JavaScript `x || d` for an optional string field: `undefined` and the
empty string are falsy. -/
def jsOrStr (x : Option String) (d : String) : String :=
  match x with
  | none => d
  | some v => if v = "" then d else v

/-! ### Descending sort (SQL `ORDER BY key DESC`) -/

/-- Descending order by a numeric key: `a` precedes `b` when
`key b ≤ key a`. -/
def descBy (key : α → ℕ) (a b : α) : Prop :=
  key b ≤ key a

instance (key : α → ℕ) : DecidableRel (descBy key) :=
  fun a b => Nat.decLe (key b) (key a)

instance (key : α → ℕ) : IsTotal α (descBy key) :=
  ⟨fun a b => (Nat.le_total (key a) (key b)).symm⟩

instance (key : α → ℕ) : IsTrans α (descBy key) :=
  ⟨fun _ _ _ hab hbc => Nat.le_trans hbc hab⟩

/-- SQL `SELECT ... ORDER BY key DESC`: sort a table descending by a key. -/
def sortByKeyDesc (key : α → ℕ) (l : List α) : List α :=
  List.insertionSort (descBy key) l

/-! ### JSON extraction (`responseText.match` of the brace regex) -/

/-- Index of the last element satisfying `p`, if any. -/
def lastIdxWhere (p : Char → Bool) (cs : List Char) : Option ℕ :=
  match cs.reverse.findIdx? p with
  | none => none
  | some k => some (cs.length - 1 - k)

/-- The greedy brace regex of `generatePrediction`
(`responseText.match` of the pattern opening-brace, any characters,
closing-brace): a match exists iff an opening brace occurs strictly before
some closing brace, and the (greedy) match runs from the first opening brace
to the last closing brace of the whole text. -/
def extractJson (s : String) : Option String :=
  let cs := s.data
  match cs.findIdx? (fun c => c = '{') with
  | none => none
  | some i =>
      match lastIdxWhere (fun c => c = '}') cs with
      | none => none
      | some j =>
          if i < j then some (String.mk ((cs.drop i).take (j - i + 1)))
          else none

/-! ### Prediction engine (`generatePrediction` and helpers) -/

/-- The JavaScript object obtained from `JSON.parse` of the extracted brace
substring, restricted to the fields the engine reads.  Each field is optional
because the parsed object may lack it. -/
structure ParsedResponse where
  riskLevel : Option String
  riskScore : Option ℚ
  predictedImpact : Option PredictedImpact
  recommendations : Option (List String)
  reasoning : Option String
  confidence : Option ℚ
deriving DecidableEq, Inhabited

/-- The empty object assigned to `parsedResponse` when the brace regex
finds no match (`jsonMatch` is null): every field is absent. -/
def emptyParsedResponse : ParsedResponse :=
  { riskLevel := none, riskScore := none, predictedImpact := none
    recommendations := none, reasoning := none, confidence := none }

/-- The fixed object assigned in the `catch` branch when `JSON.parse` of the
matched substring throws. -/
def parseFailureResponse : ParsedResponse :=
  { riskLevel := some "medium"
    riskScore := some 50
    predictedImpact := some { errorRateChange := 0, latencyChange := 0, userImpactPercentage := 0 }
    recommendations := some ["Monitor closely after deployment"]
    reasoning := some "Unable to fully analyze - recommend manual review"
    confidence := some 0.5 }

/-- Outcome of the external `env.AI.run` call: it either returned an output
object (whose `response` text may be absent) or threw. -/
inductive AiOutcome where
  | success (response : Option String)
  | failure
deriving DecidableEq, Inhabited

/-- The inner parse block of `generatePrediction`: extract the first
brace-delimited substring; if none, the parsed response is the empty object
(no exception is raised, so the `catch` branch is NOT taken); if extraction
succeeds, `JSON.parse` it, falling back to `parseFailureResponse` when the
parse throws. -/
def processResponse (jsonParse : String → Option ParsedResponse)
    (responseText : String) : ParsedResponse :=
  match extractJson responseText with
  | none => emptyParsedResponse
  | some jsonStr =>
      match jsonParse jsonStr with
      | some p => p
      | none => parseFailureResponse

/-- The values interpolated into the prompt template rendered by
`buildPredictionPrompt` (the embedding keeps the computed values rather than
the rendered string). -/
structure PredictionPromptInfo where
  flagName : String
  changeType : String
  environment : String
  changedBy : String
  avgErrorRate : ℚ
  avgLatency : ℚ
  totalRequestCount : ℕ
  recentChangeTypes : List (String × ℕ)
deriving DecidableEq, Inhabited

/-- Prompt builder `buildPredictionPrompt`: averages are guarded by `metrics.length > 0`
(0 for an empty set), the request count is summed over all supplied metrics,
and only the five most recent prior changes contribute (type + timestamp). -/
def buildPredictionPrompt (change : FlagChange) (metrics : List ImpactMetrics)
    (recentChanges : List FlagChange) : PredictionPromptInfo :=
  let avgErrorRate :=
    if metrics.length > 0
    then (metrics.map (fun m => m.errorRate)).sum / (metrics.length : ℚ)
    else 0
  let avgLatency :=
    if metrics.length > 0
    then (metrics.map (fun m => m.latencyP50)).sum / (metrics.length : ℚ)
    else 0
  { flagName := change.flagName
    changeType := change.changeType
    environment := change.environment
    changedBy := change.changedBy
    avgErrorRate := avgErrorRate
    avgLatency := avgLatency
    totalRequestCount := (metrics.map (fun m => m.requestCount)).sum
    recentChangeTypes := (recentChanges.take 5).map (fun c => (c.changeType, c.changedAt)) }

/-- Upsert semantics of `INSERT OR REPLACE INTO predictions` with `flag_id` as primary key:
the new row replaces any row with the same flag id. -/
def upsertPrediction (ps : List ImpactPrediction) (p : ImpactPrediction) :
    List ImpactPrediction :=
  p :: ps.filter (fun q => decide (q.flagId ≠ p.flagId))

/-- The stored prediction row for a flag id, if any. -/
def storedPrediction (s : AgentState) (flagId : String) : Option ImpactPrediction :=
  s.predictions.find? (fun p => decide (p.flagId = flagId))

/-- Prediction engine `generatePrediction(change)`.  Reads the most recent 100 metric samples
and 20 changes for the flag, renders the prompt, and then:
* on a successful model call, extracts/parses the response text
  (`aiResponse.response || chars 0x7b 0x7d` when absent or empty), applies the
  JavaScript `||` defaults field by field, stores the prediction with
  `INSERT OR REPLACE`, and returns it;
* when the model call throws, returns the fixed low-confidence (0.3) object
  WITHOUT storing anything (the `catch` branch has no SQL write). -/
def generatePrediction (jsonParse : String → Option ParsedResponse) (now : ℕ)
    (outcome : AiOutcome) (s : AgentState) (change : FlagChange) :
    AgentState × ImpactPrediction :=
  let historicalMetrics :=
    (sortByKeyDesc (fun m => m.timestamp)
      (s.impact_metrics.filter (fun m => decide (m.flagId = change.flagId)))).take 100
  let recentChanges :=
    (sortByKeyDesc (fun c => c.changedAt)
      (s.flag_changes.filter (fun c => decide (c.flagId = change.flagId)))).take 20
  let _prompt := buildPredictionPrompt change historicalMetrics recentChanges
  match outcome with
  | AiOutcome.success response =>
      let responseText := jsOrStr response "{}"
      let parsedResponse := processResponse jsonParse responseText
      let prediction : ImpactPrediction :=
        { flagId := change.flagId
          flagName := change.flagName
          riskLevel := jsOrStr parsedResponse.riskLevel "medium"
          riskScore := jsOrNum parsedResponse.riskScore 50
          predictedImpact :=
            match parsedResponse.predictedImpact with
            | some impact => impact
            | none =>
                { errorRateChange := 0
                  latencyChange := 0
                  userImpactPercentage :=
                    jsOrNum (change.newValue.map (fun v => v.rolloutPercentage)) 0 }
          recommendations :=
            match parsedResponse.recommendations with
            | some recs => recs
            | none => []
          reasoning := jsOrStr parsedResponse.reasoning ""
          confidence := jsOrNum parsedResponse.confidence 0.7
          generatedAt := now }
      ({ s with predictions := upsertPrediction s.predictions prediction }, prediction)
  | AiOutcome.failure =>
      (s,
        { flagId := change.flagId
          flagName := change.flagName
          riskLevel := "medium"
          riskScore := 50
          predictedImpact := { errorRateChange := 0, latencyChange := 0, userImpactPercentage := 0 }
          recommendations := ["Manual review recommended due to analysis error"]
          reasoning := "Automated analysis unavailable"
          confidence := 0.3
          generatedAt := now })

/-! ### Anomaly detector (`detectAnomalies`) -/

/-- Arithmetic mean of the error rates of a window
(`reduce((sum, m) => sum + m.errorRate, 0) / length`). -/
def meanErrorRate (l : List ImpactMetrics) : ℚ :=
  (l.map (fun m => m.errorRate)).sum / (l.length : ℚ)

/-- Arithmetic mean of the p50 latencies of a window. -/
def meanLatencyP50 (l : List ImpactMetrics) : ℚ :=
  (l.map (fun m => m.latencyP50)).sum / (l.length : ℚ)

/-- The metric window `detectAnomalies` scans:
`SELECT * FROM impact_metrics WHERE flag_id = ? ORDER BY timestamp DESC LIMIT 50`. -/
def flagWindow (s : AgentState) (flagId : String) : List ImpactMetrics :=
  (sortByKeyDesc (fun m => m.timestamp)
    (s.impact_metrics.filter (fun m => decide (m.flagId = flagId)))).take 50

/-- The threshold logic of `detectAnomalies` on an already-fetched window
(newest-first).  Returns the anomalies created, in creation order.
Fewer than 5 samples, or an empty baseline, is a silent no-op. -/
def detectOnWindow (flagId flagName errorId latencyId : String) (now : ℕ)
    (metrics : List ImpactMetrics) : List Anomaly :=
  if metrics.length < 5 then [] else
  let recent := metrics.take 5
  let baseline := metrics.drop 5
  if baseline.length = 0 then [] else
  let avgBaselineError := meanErrorRate baseline
  let avgBaselineLatency := meanLatencyP50 baseline
  let avgRecentError := meanErrorRate recent
  let avgRecentLatency := meanLatencyP50 recent
  let errorSpikes :=
    if avgRecentError > avgBaselineError * 1.5 ∧ avgRecentError > 1 then
      [{ id := errorId, flagId := flagId, flagName := flagName
         type := AnomalyType.error_spike
         severity :=
           if avgRecentError > avgBaselineError * 2
           then Severity.critical else Severity.warning
         detectedAt := now
         metrics := recent.headI
         messagePct := (avgRecentError / avgBaselineError - 1) * 100
         resolved := false }]
    else []
  let latencySpikes :=
    if avgRecentLatency > avgBaselineLatency * 2 then
      [{ id := latencyId, flagId := flagId, flagName := flagName
         type := AnomalyType.latency_spike
         severity :=
           if avgRecentLatency > avgBaselineLatency * 3
           then Severity.critical else Severity.warning
         detectedAt := now
         metrics := recent.headI
         messagePct := (avgRecentLatency / avgBaselineLatency - 1) * 100
         resolved := false }]
    else []
  errorSpikes ++ latencySpikes

/-- Detector `detectAnomalies(flagId)`: fetch the window, resolve the display name
(`flag?.name || flagId`), evaluate both rules, insert each created anomaly
(`createAnomaly` appends a row and broadcasts it).  The second component is
the list of anomalies created and broadcast by this call. -/
def detectAnomalies (errorId latencyId : String) (now : ℕ) (s : AgentState)
    (flagId : String) : AgentState × List Anomaly :=
  let metrics := flagWindow s flagId
  let flagName :=
    jsOrStr ((s.feature_flags.find? (fun f => decide (f.id = flagId))).map
      (fun f => f.name)) flagId
  let emitted := detectOnWindow flagId flagName errorId latencyId now metrics
  ({ s with anomalies := s.anomalies ++ emitted }, emitted)

/-! ### Queries and entry points -/

/-- Listing query `getRecentAnomalies`:
`SELECT * FROM anomalies WHERE resolved = 0 ORDER BY detected_at DESC LIMIT 20`. -/
def getRecentAnomalies (s : AgentState) : List Anomaly :=
  (sortByKeyDesc (fun a => a.detectedAt)
    (s.anomalies.filter (fun a => decide (a.resolved = false)))).take 20

/-- The reply sent for a `subscribe_anomalies` message on the WebSocket
channel (`handleWebSocketMessage`): channel name plus the immediate
unresolved-anomaly listing. -/
structure SubscribedReply where
  channel : String
  anomalies : List Anomaly
deriving DecidableEq

/-- The `subscribe_anomalies` branch of `handleWebSocketMessage`. -/
def subscribeAnomaliesReply (s : AgentState) : SubscribedReply :=
  { channel := "anomalies", anomalies := getRecentAnomalies s }

/-- Append-only `recordFlagChange`: `INSERT INTO flag_changes`.  The
defaulting of an absent id/timestamp to a fresh UUID / current time is
elided: the embedding takes the change row as supplied. -/
def recordFlagChange (s : AgentState) (change : FlagChange) : AgentState :=
  { s with flag_changes := s.flag_changes ++ [change] }

/-- Endpoint `recordChange` (POST /flags/change): append the change to the change log,
run the prediction engine, then the anomaly detector, and broadcast.  Returns
the final state, the prediction, and the anomalies the scan created. -/
def recordChange (jsonParse : String → Option ParsedResponse)
    (now : ℕ) (errorId latencyId : String) (outcome : AiOutcome)
    (s : AgentState) (change : FlagChange) :
    AgentState × ImpactPrediction × List Anomaly :=
  let s1 := recordFlagChange s change
  let pr := generatePrediction jsonParse now outcome s1 change
  let da := detectAnomalies errorId latencyId now pr.1 change.flagId
  (da.1, pr.2, da.2)

/-- Endpoint `analyzeFlag` (POST /analyze): look up the flag (404 → `none`), build a
synthetic "enabled" change from its current stored state, and run the same
prediction + detection pipeline — WITHOUT recording the synthetic change in
the change log.  (The snake/camel environment fallback chain collapses to the
single modelled field, with the same empty-string defaulting.) -/
def analyzeFlag (jsonParse : String → Option ParsedResponse)
    (now : ℕ) (changeId errorId latencyId : String) (outcome : AiOutcome)
    (s : AgentState) (flagId : String) :
    Option (AgentState × FeatureFlag × ImpactPrediction) :=
  match s.feature_flags.find? (fun f => decide (f.id = flagId)) with
  | none => none
  | some flag =>
      let change : FlagChange :=
        { id := changeId
          flagId := flag.id
          flagName := flag.name
          changeType := "enabled"
          previousValue := none
          newValue := some flag
          changedBy := "manual_analysis"
          changedAt := now
          environment := jsOrStr (some flag.targetEnvironment) "development" }
      let pr := generatePrediction jsonParse now outcome s change
      let da := detectAnomalies errorId latencyId now pr.1 flagId
      some (da.1, flag, pr.2)

/-! ### Concrete fixtures used by the claim theorems -/

/-- A metric sample for flag "F" with the given timestamp, error rate and
p50 latency (remaining fields zero). -/
def mF (ts : ℕ) (err lat : ℚ) : ImpactMetrics :=
  { flagId := "F", timestamp := ts, errorRate := err, latencyP50 := lat
    latencyP99 := 0, requestCount := 0, conversionRate := 0
    userSatisfactionScore := 0 }

/-- The empty agent state (freshly initialized tables). -/
def state0 : AgentState :=
  { feature_flags := [], flag_changes := [], impact_metrics := []
    predictions := [], anomalies := [] }

/-- A concrete flag change for flag "F" with no value snapshots. -/
def changeF : FlagChange :=
  { id := "c1", flagId := "F", flagName := "F", changeType := "enabled"
    previousValue := none, newValue := none, changedBy := "u", changedAt := 0
    environment := "development" }

/-- A `JSON.parse` model that fails on every input. -/
def jsonParse0 : String → Option ParsedResponse := fun _ => none

/-- Six samples with error rates 1,1,1,1,1,5 oldest-to-newest, stable 50ms
latency, for flag "F". -/
def stateC5 : AgentState :=
  { feature_flags := [], flag_changes := []
    impact_metrics := [mF 1 1 50, mF 2 1 50, mF 3 1 50, mF 4 1 50, mF 5 1 50, mF 6 5 50]
    predictions := [], anomalies := [] }

/-! ### Shared helper lemmas -/

/-- After the success path of the prediction engine, the stored row for the
change's flag id is exactly the prediction the call returned. -/
theorem generatePrediction_success_stores
    (jsonParse : String → Option ParsedResponse) (now : ℕ) (response : Option String)
    (s : AgentState) (change : FlagChange) :
    storedPrediction
        (generatePrediction jsonParse now (AiOutcome.success response) s change).1
        change.flagId
      = some (generatePrediction jsonParse now (AiOutcome.success response) s change).2 := by
  simp [generatePrediction, storedPrediction, upsertPrediction, List.find?]

/-- The prediction engine never writes the change log. -/
theorem generatePrediction_flag_changes
    (jsonParse : String → Option ParsedResponse) (now : ℕ) (outcome : AiOutcome)
    (s : AgentState) (change : FlagChange) :
    ((generatePrediction jsonParse now outcome s change).1).flag_changes
      = s.flag_changes := by
  cases outcome <;> rfl

/-- The anomaly detector never writes the change log. -/
theorem detectAnomalies_flag_changes (errorId latencyId : String) (now : ℕ)
    (s : AgentState) (flagId : String) :
    ((detectAnomalies errorId latencyId now s flagId).1).flag_changes
      = s.flag_changes := rfl

/-! ### Claim C1 -/

/-- Claim C1 is FALSE on the code: when the model call succeeds but the
response text contains no brace-delimited substring, `jsonMatch` is null and
the code assigns the EMPTY object (the `catch` fallback is not reached), so
the returned prediction carries the field-by-field `||` defaults — confidence
0.7 and an empty recommendation list — not the claimed 0.5 fallback with the
"Monitor closely after deployment" recommendation. -/
theorem claim_C1_counterexample :
    extractJson "no json here" = none
    ∧ (generatePrediction jsonParse0 100 (AiOutcome.success (some "no json here"))
        state0 changeF).2.confidence = 0.7
    ∧ (generatePrediction jsonParse0 100 (AiOutcome.success (some "no json here"))
        state0 changeF).2.recommendations = []
    ∧ ¬((generatePrediction jsonParse0 100 (AiOutcome.success (some "no json here"))
          state0 changeF).2.confidence = 0.5
        ∧ (generatePrediction jsonParse0 100 (AiOutcome.success (some "no json here"))
            state0 changeF).2.recommendations = ["Monitor closely after deployment"]) := by
  with_unfolding_all decide

/-- Claim C1 (amended): when the model call succeeds but the response text
contains no brace-delimited substring, the returned (and stored) prediction
is built from an empty parsed object via the `||` defaults: risk level
"medium", risk score 50, impact deltas 0 except that the user-impact
percentage is the change's new-value rollout percentage (0 when absent or 0),
an EMPTY recommendation list, an empty reasoning string, and confidence 0.7.
The fixed 0.5 fallback is only produced when an extracted brace substring
fails to parse. -/
theorem claim_C1_amended (jsonParse : String → Option ParsedResponse) (now : ℕ)
    (s : AgentState) (change : FlagChange) (response : Option String)
    (h : extractJson (jsOrStr response "{}") = none) :
    (generatePrediction jsonParse now (AiOutcome.success response) s change).2 =
      { flagId := change.flagId
        flagName := change.flagName
        riskLevel := "medium"
        riskScore := 50
        predictedImpact :=
          { errorRateChange := 0, latencyChange := 0
            userImpactPercentage :=
              jsOrNum (change.newValue.map (fun v => v.rolloutPercentage)) 0 }
        recommendations := []
        reasoning := ""
        confidence := 0.7
        generatedAt := now }
    ∧ storedPrediction
        (generatePrediction jsonParse now (AiOutcome.success response) s change).1
        change.flagId
      = some (generatePrediction jsonParse now (AiOutcome.success response) s change).2 := by
  refine ⟨?_, generatePrediction_success_stores jsonParse now response s change⟩
  have hp : processResponse jsonParse (jsOrStr response "{}") = emptyParsedResponse := by
    unfold processResponse
    rw [h]
  simp only [generatePrediction]
  rw [hp]
  simp [emptyParsedResponse, jsOrStr, jsOrNum]

/-- Witness for `claim_C1_amended` at the concrete response text
"no json here". -/
theorem claim_C1_amended_witness :
    extractJson (jsOrStr (some "no json here") "{}") = none
    ∧ (generatePrediction jsonParse0 100 (AiOutcome.success (some "no json here"))
        state0 changeF).2 =
      { flagId := changeF.flagId
        flagName := changeF.flagName
        riskLevel := "medium"
        riskScore := 50
        predictedImpact :=
          { errorRateChange := 0, latencyChange := 0
            userImpactPercentage :=
              jsOrNum (changeF.newValue.map (fun v => v.rolloutPercentage)) 0 }
        recommendations := []
        reasoning := ""
        confidence := 0.7
        generatedAt := 100 } :=
  ⟨by with_unfolding_all decide,
   (claim_C1_amended jsonParse0 100 state0 changeF (some "no json here")
      (by with_unfolding_all decide)).1⟩

/-! ### Claim C3 -/

/-- A previously stored prediction row for flag "F". -/
def predPrior : ImpactPrediction :=
  { flagId := "F", flagName := "F", riskLevel := "low", riskScore := 10
    predictedImpact := { errorRateChange := 0, latencyChange := 0, userImpactPercentage := 0 }
    recommendations := [], reasoning := "prior analysis", confidence := 0.9
    generatedAt := 5 }

/-- A state whose prediction table already holds `predPrior`. -/
def stateC3 : AgentState :=
  { feature_flags := [], flag_changes := [], impact_metrics := []
    predictions := [predPrior], anomalies := [] }

/-- Claim C3 is FALSE on the code: when the external model call fails, the
low-confidence (0.3) fallback is returned from the `catch` branch WITHOUT any
`INSERT OR REPLACE` — the previously stored prediction for the flag survives
and differs from the returned fallback. -/
theorem claim_C3_counterexample :
    (generatePrediction jsonParse0 100 AiOutcome.failure stateC3 changeF).2.confidence = 0.3
    ∧ (generatePrediction jsonParse0 100 AiOutcome.failure stateC3 changeF).2.recommendations
        = ["Manual review recommended due to analysis error"]
    ∧ storedPrediction
        (generatePrediction jsonParse0 100 AiOutcome.failure stateC3 changeF).1 "F"
      = some predPrior
    ∧ ¬ storedPrediction
          (generatePrediction jsonParse0 100 AiOutcome.failure stateC3 changeF).1 "F"
        = some (generatePrediction jsonParse0 100 AiOutcome.failure stateC3 changeF).2 := by
  with_unfolding_all decide

/-- Claim C3 (amended): a prediction produced on the success path of the
external call (including the parse-failure 0.5 fallback, which is built
inside the `try` block) is persisted keyed by flag id, replacing any prior
row for that flag; but when the external call itself fails, the returned
low-confidence (0.3) fallback is NOT persisted — the entire state, including
the previously stored prediction for that flag, is left unchanged. -/
theorem claim_C3_amended (jsonParse : String → Option ParsedResponse) (now : ℕ)
    (s : AgentState) (change : FlagChange) (response : Option String) :
    (storedPrediction
        (generatePrediction jsonParse now (AiOutcome.success response) s change).1
        change.flagId
      = some (generatePrediction jsonParse now (AiOutcome.success response) s change).2)
    ∧ (generatePrediction jsonParse now AiOutcome.failure s change).1 = s
    ∧ (generatePrediction jsonParse now AiOutcome.failure s change).2.confidence = 0.3 :=
  ⟨generatePrediction_success_stores jsonParse now response s change, rfl, rfl⟩

/-! ### Claim C4 -/

/-- A parsed model response whose risk score and confidence are the
(well-formed, in-JSON) value 0. -/
def zeroScoreResponse : ParsedResponse :=
  { riskLevel := some "low"
    riskScore := some 0
    predictedImpact :=
      some { errorRateChange := 1, latencyChange := 1, userImpactPercentage := 1 }
    recommendations := some ["keep watching"]
    reasoning := some "model reasoning"
    confidence := some 0 }

/-- A `JSON.parse` model that parses every input to `zeroScoreResponse`. -/
def jsonParseZero : String → Option ParsedResponse := fun _ => some zeroScoreResponse

/-- Claim C4 is FALSE on the code: a well-formed model response carrying
risk score 0 and confidence 0 does NOT pass through unchanged — the `||`
defaults replace the JavaScript-falsy 0 by 50 and 0.7 respectively. -/
theorem claim_C4_counterexample :
    extractJson "{}" = some "{}"
    ∧ jsonParseZero "{}" = some zeroScoreResponse
    ∧ zeroScoreResponse.riskScore = some 0
    ∧ zeroScoreResponse.confidence = some 0
    ∧ (generatePrediction jsonParseZero 100 (AiOutcome.success (some "{}"))
        state0 changeF).2.riskScore = 50
    ∧ ¬ (generatePrediction jsonParseZero 100 (AiOutcome.success (some "{}"))
          state0 changeF).2.riskScore = 0
    ∧ (generatePrediction jsonParseZero 100 (AiOutcome.success (some "{}"))
        state0 changeF).2.confidence = 0.7
    ∧ ¬ (generatePrediction jsonParseZero 100 (AiOutcome.success (some "{}"))
          state0 changeF).2.confidence = 0 := by
  with_unfolding_all decide

/-- Claim C4 (amended): for a well-formed model response, the model-supplied
risk score and confidence are carried unchanged whenever they are nonzero —
including values outside [0,100] or [0,1] — but a supplied 0 is replaced by
the defaults 50 and 0.7 (JavaScript `||` treats 0 as falsy); no other
validation or clamping is applied. -/
theorem claim_C4_amended (jsonParse : String → Option ParsedResponse) (now : ℕ)
    (s : AgentState) (change : FlagChange) (response : Option String)
    (jsonStr : String) (p : ParsedResponse)
    (hx : extractJson (jsOrStr response "{}") = some jsonStr)
    (hp : jsonParse jsonStr = some p) :
    (∀ v : ℚ, p.riskScore = some v → v ≠ 0 →
      (generatePrediction jsonParse now (AiOutcome.success response) s change).2.riskScore = v)
    ∧ (p.riskScore = some 0 →
      (generatePrediction jsonParse now (AiOutcome.success response) s change).2.riskScore = 50)
    ∧ (∀ c : ℚ, p.confidence = some c → c ≠ 0 →
      (generatePrediction jsonParse now (AiOutcome.success response) s change).2.confidence = c)
    ∧ (p.confidence = some 0 →
      (generatePrediction jsonParse now (AiOutcome.success response) s change).2.confidence
        = 0.7) := by
  have hpr : processResponse jsonParse (jsOrStr response "{}") = p := by
    unfold processResponse
    rw [hx]
    simp [hp]
  refine ⟨?_, ?_, ?_, ?_⟩
  · intro v hv hv0
    simp only [generatePrediction]
    rw [hpr]
    simp [jsOrNum, hv, hv0]
  · intro hv
    simp only [generatePrediction]
    rw [hpr]
    simp [jsOrNum, hv]
  · intro c hc hc0
    simp only [generatePrediction]
    rw [hpr]
    simp [jsOrNum, hc, hc0]
  · intro hc
    simp only [generatePrediction]
    rw [hpr]
    simp [jsOrNum, hc]

/-- Witness for `claim_C4_amended`: a parse producing risk score 0 and
confidence 0 yields the defaults 50 and 0.7. -/
theorem claim_C4_amended_witness :
    extractJson (jsOrStr (some "{}") "{}") = some "{}"
    ∧ jsonParseZero "{}" = some zeroScoreResponse
    ∧ (generatePrediction jsonParseZero 100 (AiOutcome.success (some "{}"))
        state0 changeF).2.riskScore = 50
    ∧ (generatePrediction jsonParseZero 100 (AiOutcome.success (some "{}"))
        state0 changeF).2.confidence = 0.7 :=
  ⟨by with_unfolding_all decide, rfl,
   (claim_C4_amended jsonParseZero 100 state0 changeF (some "{}") "{}" zeroScoreResponse
      (by with_unfolding_all decide) rfl).2.1 rfl,
   (claim_C4_amended jsonParseZero 100 state0 changeF (some "{}") "{}" zeroScoreResponse
      (by with_unfolding_all decide) rfl).2.2.2 rfl⟩

/-! ### Claim C5 -/

/-- Claim C5: with exactly 6 samples for flag "F" carrying error rates
1,1,1,1,1,5 oldest-to-newest and stable latencies, detect() partitions the
newest-first window into recent = the 5 newest and baseline = the 1 oldest,
computes recent mean 1.8 and baseline mean 1.0, and emits exactly one
error_spike anomaly with severity warning whose message reports the
percentage increase (recent/baseline - 1) * 100 = 80. -/
theorem claim_C5_six_sample_error_spike :
    (flagWindow stateC5 "F").take 5
      = [mF 6 5 50, mF 5 1 50, mF 4 1 50, mF 3 1 50, mF 2 1 50]
    ∧ (flagWindow stateC5 "F").drop 5 = [mF 1 1 50]
    ∧ meanErrorRate ((flagWindow stateC5 "F").take 5) = 1.8
    ∧ meanErrorRate ((flagWindow stateC5 "F").drop 5) = 1.0
    ∧ (detectAnomalies "e1" "l1" 100 stateC5 "F").2 =
        [{ id := "e1", flagId := "F", flagName := "F", type := AnomalyType.error_spike
           severity := Severity.warning, detectedAt := 100, metrics := mF 6 5 50
           messagePct := (1.8 / 1.0 - 1) * 100, resolved := false }]
    ∧ (detectAnomalies "e1" "l1" 100 stateC5 "F").1.anomalies =
        [{ id := "e1", flagId := "F", flagName := "F", type := AnomalyType.error_spike
           severity := Severity.warning, detectedAt := 100, metrics := mF 6 5 50
           messagePct := (1.8 / 1.0 - 1) * 100, resolved := false }] := by
  with_unfolding_all decide

/-! ### Claim C2 -/

/-- Six samples for flag "F" whose recent mean error rate is exactly twice
the baseline mean: error rates 1,2,2,2,2,2 oldest-to-newest. -/
def stateC2 : AgentState :=
  { feature_flags := [], flag_changes := []
    impact_metrics := [mF 1 1 50, mF 2 2 50, mF 3 2 50, mF 4 2 50, mF 5 2 50, mF 6 2 50]
    predictions := [], anomalies := [] }

/-- Claim C2 is FALSE on the code: at baseline mean 1.0 and recent mean 2.0
(ratio exactly 2.0, over the 1.5x and absolute floors) the emitted
error_spike anomaly has severity WARNING, because the code's severity test is
the strict comparison `recent > baseline * 2`, which fails at equality. -/
theorem claim_C2_counterexample :
    meanErrorRate ((flagWindow stateC2 "F").take 5) = 2.0
    ∧ meanErrorRate ((flagWindow stateC2 "F").drop 5) = 1.0
    ∧ (detectAnomalies "e1" "l1" 100 stateC2 "F").2.map (fun a => (a.type, a.severity))
        = [(AnomalyType.error_spike, Severity.warning)]
    ∧ ¬ (detectAnomalies "e1" "l1" 100 stateC2 "F").2.map (fun a => (a.type, a.severity))
        = [(AnomalyType.error_spike, Severity.critical)] := by
  with_unfolding_all decide

/-- Claim C2 (amended): for every metric window in which the recent mean
error rate is greater than 1.5 times the baseline mean and greater than the
absolute floor 1, detect() emits exactly one error_spike anomaly, whose
severity is critical exactly when the recent mean STRICTLY exceeds 2 times
the baseline mean; at a ratio of exactly 2.0 the severity is warning, and
warning for every ratio up to and including 2.0. -/
theorem claim_C2_amended (flagId flagName errorId latencyId : String) (now : ℕ)
    (metrics : List ImpactMetrics)
    (h5 : ¬ metrics.length < 5)
    (hb : ¬ (metrics.drop 5).length = 0)
    (hfire : meanErrorRate (metrics.take 5) > meanErrorRate (metrics.drop 5) * 1.5)
    (hfloor : meanErrorRate (metrics.take 5) > 1) :
    (detectOnWindow flagId flagName errorId latencyId now metrics).filter
        (fun a => decide (a.type = AnomalyType.error_spike))
      = [{ id := errorId, flagId := flagId, flagName := flagName
           type := AnomalyType.error_spike
           severity :=
             if meanErrorRate (metrics.take 5) > meanErrorRate (metrics.drop 5) * 2
             then Severity.critical else Severity.warning
           detectedAt := now
           metrics := (metrics.take 5).headI
           messagePct :=
             (meanErrorRate (metrics.take 5) / meanErrorRate (metrics.drop 5) - 1) * 100
           resolved := false }]
    ∧ (meanErrorRate (metrics.take 5) = meanErrorRate (metrics.drop 5) * 2 →
        (if meanErrorRate (metrics.take 5) > meanErrorRate (metrics.drop 5) * 2
         then Severity.critical else Severity.warning) = Severity.warning) := by
  constructor
  · simp only [detectOnWindow]
    rw [if_neg h5, if_neg hb, if_pos (And.intro hfire hfloor)]
    by_cases hlat :
        meanLatencyP50 (metrics.take 5) > meanLatencyP50 (metrics.drop 5) * 2
    · rw [if_pos hlat]
      simp [List.filter]
    · rw [if_neg hlat]
      simp [List.filter]
  · intro heq
    rw [if_neg]
    rw [heq]
    exact lt_irrefl _

/-- Witness for `claim_C2_amended` at the exact-ratio-2.0 window of
`stateC2`: the emitted error_spike has severity warning. -/
theorem claim_C2_amended_witness :
    ¬ (flagWindow stateC2 "F").length < 5
    ∧ ¬ ((flagWindow stateC2 "F").drop 5).length = 0
    ∧ meanErrorRate ((flagWindow stateC2 "F").take 5)
        > meanErrorRate ((flagWindow stateC2 "F").drop 5) * 1.5
    ∧ meanErrorRate ((flagWindow stateC2 "F").take 5) > 1
    ∧ (detectOnWindow "F" "F" "e1" "l1" 100 (flagWindow stateC2 "F")).filter
        (fun a => decide (a.type = AnomalyType.error_spike))
      = [{ id := "e1", flagId := "F", flagName := "F"
           type := AnomalyType.error_spike
           severity :=
             if meanErrorRate ((flagWindow stateC2 "F").take 5)
                 > meanErrorRate ((flagWindow stateC2 "F").drop 5) * 2
             then Severity.critical else Severity.warning
           detectedAt := 100
           metrics := ((flagWindow stateC2 "F").take 5).headI
           messagePct :=
             (meanErrorRate ((flagWindow stateC2 "F").take 5)
               / meanErrorRate ((flagWindow stateC2 "F").drop 5) - 1) * 100
           resolved := false }] :=
  ⟨by with_unfolding_all decide, by with_unfolding_all decide,
   by with_unfolding_all decide, by with_unfolding_all decide,
   (claim_C2_amended "F" "F" "e1" "l1" 100 (flagWindow stateC2 "F")
      (by with_unfolding_all decide) (by with_unfolding_all decide)
      (by with_unfolding_all decide) (by with_unfolding_all decide)).1⟩

/-! ### Claim C6 -/

/-- Claim C6: on every window with enough data, detect() emits a
latency_spike anomaly exactly when the recent mean p50 latency exceeds 2
times the baseline mean, with severity critical exactly when it exceeds 3
times the baseline mean and warning otherwise — independently of whether the
error-spike rule also fires (no error-rate hypothesis is needed).  In
particular a window with baseline mean 50 and recent mean 95 (ratio 1.9)
emits no latency_spike, and one with recent mean 160 (ratio 3.2) emits
exactly one critical latency_spike (see the witness). -/
theorem claim_C6_latency_rule (flagId flagName errorId latencyId : String) (now : ℕ)
    (metrics : List ImpactMetrics)
    (h5 : ¬ metrics.length < 5)
    (hb : ¬ (metrics.drop 5).length = 0) :
    (detectOnWindow flagId flagName errorId latencyId now metrics).filter
        (fun a => decide (a.type = AnomalyType.latency_spike))
      = (if meanLatencyP50 (metrics.take 5) > meanLatencyP50 (metrics.drop 5) * 2
         then
           [{ id := latencyId, flagId := flagId, flagName := flagName
              type := AnomalyType.latency_spike
              severity :=
                if meanLatencyP50 (metrics.take 5) > meanLatencyP50 (metrics.drop 5) * 3
                then Severity.critical else Severity.warning
              detectedAt := now
              metrics := (metrics.take 5).headI
              messagePct :=
                (meanLatencyP50 (metrics.take 5) / meanLatencyP50 (metrics.drop 5) - 1) * 100
              resolved := false }]
         else []) := by
  simp only [detectOnWindow]
  rw [if_neg h5, if_neg hb]
  by_cases herr :
      meanErrorRate (metrics.take 5) > meanErrorRate (metrics.drop 5) * 1.5
        ∧ meanErrorRate (metrics.take 5) > 1
  · rw [if_pos herr]
    by_cases hlat :
        meanLatencyP50 (metrics.take 5) > meanLatencyP50 (metrics.drop 5) * 2
    · rw [if_pos hlat]
      simp [List.filter]
    · rw [if_neg hlat]
      simp [List.filter]
  · rw [if_neg herr]
    by_cases hlat :
        meanLatencyP50 (metrics.take 5) > meanLatencyP50 (metrics.drop 5) * 2
    · rw [if_pos hlat]
      simp [List.filter]
    · rw [if_neg hlat]
      simp [List.filter]

/-- Six samples for flag "F" with stable error rates, baseline p50 latency 50
and recent p50 latencies averaging 95 (ratio 1.9). -/
def stateC6low : AgentState :=
  { feature_flags := [], flag_changes := []
    impact_metrics :=
      [mF 1 0 50, mF 2 0 95, mF 3 0 95, mF 4 0 95, mF 5 0 95, mF 6 0 95]
    predictions := [], anomalies := [] }

/-- Six samples for flag "F" with error rates that also fire the error-spike
rule, baseline p50 latency 50 and recent p50 latencies averaging 160
(ratio 3.2). -/
def stateC6high : AgentState :=
  { feature_flags := [], flag_changes := []
    impact_metrics :=
      [mF 1 1 50, mF 2 5 160, mF 3 5 160, mF 4 5 160, mF 5 5 160, mF 6 5 160]
    predictions := [], anomalies := [] }

/-- Witness for `claim_C6_latency_rule`: ratio 1.9 emits no latency_spike;
ratio 3.2 emits exactly one critical latency_spike even though the
error-spike rule fires in the same scan. -/
theorem claim_C6_latency_rule_witness :
    ¬ (flagWindow stateC6low "F").length < 5
    ∧ ¬ ((flagWindow stateC6low "F").drop 5).length = 0
    ∧ meanLatencyP50 ((flagWindow stateC6low "F").take 5) = 95
    ∧ meanLatencyP50 ((flagWindow stateC6low "F").drop 5) = 50
    ∧ (detectOnWindow "F" "F" "e1" "l1" 100 (flagWindow stateC6low "F")).filter
        (fun a => decide (a.type = AnomalyType.latency_spike)) = []
    ∧ meanLatencyP50 ((flagWindow stateC6high "F").take 5) = 160
    ∧ meanLatencyP50 ((flagWindow stateC6high "F").drop 5) = 50
    ∧ (detectOnWindow "F" "F" "e1" "l1" 100 (flagWindow stateC6high "F")).map
        (fun a => (a.type, a.severity))
        = [(AnomalyType.error_spike, Severity.critical),
           (AnomalyType.latency_spike, Severity.critical)]
    ∧ (detectOnWindow "F" "F" "e1" "l1" 100 (flagWindow stateC6high "F")).filter
        (fun a => decide (a.type = AnomalyType.latency_spike))
      = [{ id := "l1", flagId := "F", flagName := "F"
           type := AnomalyType.latency_spike
           severity := Severity.critical
           detectedAt := 100
           metrics := mF 6 5 160
           messagePct := (160 / 50 - 1) * 100
           resolved := false }] := by
  refine ⟨by with_unfolding_all decide, by with_unfolding_all decide,
    by with_unfolding_all decide, by with_unfolding_all decide, ?_,
    by with_unfolding_all decide, by with_unfolding_all decide,
    by with_unfolding_all decide, ?_⟩
  · rw [claim_C6_latency_rule "F" "F" "e1" "l1" 100 (flagWindow stateC6low "F")
      (by with_unfolding_all decide) (by with_unfolding_all decide)]
    with_unfolding_all decide
  · rw [claim_C6_latency_rule "F" "F" "e1" "l1" 100 (flagWindow stateC6high "F")
      (by with_unfolding_all decide) (by with_unfolding_all decide)]
    with_unfolding_all decide

/-! ### Claim C7 -/

/-- A window of at most 5 samples produces no anomalies: fewer than 5 hits
the minimum-data guard, exactly 5 leaves an empty baseline. -/
theorem detectOnWindow_eq_nil_of_short (flagId flagName errorId latencyId : String)
    (now : ℕ) (metrics : List ImpactMetrics) (h : metrics.length ≤ 5) :
    detectOnWindow flagId flagName errorId latencyId now metrics = [] := by
  by_cases h5 : metrics.length < 5
  · simp only [detectOnWindow]
    rw [if_pos h5]
  · have hlen : metrics.length = 5 := Nat.le_antisymm h (Nat.le_of_not_lt h5)
    have hdrop : (metrics.drop 5).length = 0 := by
      rw [List.length_drop, hlen]
    simp only [detectOnWindow]
    rw [if_neg h5, if_pos hdrop]

/-- The fetched window is never longer than the flag's metric history. -/
theorem flagWindow_length_le (s : AgentState) (flagId : String) :
    (flagWindow s flagId).length
      ≤ (s.impact_metrics.filter (fun m => decide (m.flagId = flagId))).length := by
  unfold flagWindow sortByKeyDesc
  calc (List.take 50 (List.insertionSort (descBy (fun m => m.timestamp))
          (s.impact_metrics.filter (fun m => decide (m.flagId = flagId))))).length
      ≤ (List.insertionSort (descBy (fun m => m.timestamp))
          (s.impact_metrics.filter (fun m => decide (m.flagId = flagId)))).length := by
        rw [List.length_take]
        exact Nat.min_le_right _ _
    _ = _ := (List.perm_insertionSort _ _).length_eq

/-- Claim C7: for every flag whose stored metric history holds at most 5
samples (fewer than 5, or exactly 5 with an empty baseline), detect() is a
no-op — it emits no anomalies and leaves the state unchanged (the source has
no error path here: both guards are plain `return`s). -/
theorem claim_C7_insufficient_data (errorId latencyId : String) (now : ℕ)
    (s : AgentState) (flagId : String)
    (h : (s.impact_metrics.filter (fun m => decide (m.flagId = flagId))).length ≤ 5) :
    detectAnomalies errorId latencyId now s flagId = (s, []) := by
  have hwin : (flagWindow s flagId).length ≤ 5 :=
    Nat.le_trans (flagWindow_length_le s flagId) h
  have hnil := detectOnWindow_eq_nil_of_short flagId
    (jsOrStr ((s.feature_flags.find? (fun f => decide (f.id = flagId))).map
      (fun f => f.name)) flagId) errorId latencyId now (flagWindow s flagId) hwin
  simp only [detectAnomalies]
  rw [hnil]
  simp

/-- Witness for `claim_C7_insufficient_data`: a history of exactly 5 samples
yields a no-op scan. -/
theorem claim_C7_insufficient_data_witness :
    ((AgentState.impact_metrics
        { feature_flags := [], flag_changes := []
          impact_metrics := [mF 1 1 50, mF 2 1 50, mF 3 1 50, mF 4 1 50, mF 5 1 50]
          predictions := [], anomalies := [] }).filter
      (fun m => decide (m.flagId = "F"))).length ≤ 5
    ∧ detectAnomalies "e1" "l1" 100
        { feature_flags := [], flag_changes := []
          impact_metrics := [mF 1 1 50, mF 2 1 50, mF 3 1 50, mF 4 1 50, mF 5 1 50]
          predictions := [], anomalies := [] } "F"
      = ({ feature_flags := [], flag_changes := []
           impact_metrics := [mF 1 1 50, mF 2 1 50, mF 3 1 50, mF 4 1 50, mF 5 1 50]
           predictions := [], anomalies := [] }, []) :=
  ⟨by with_unfolding_all decide,
   claim_C7_insufficient_data "e1" "l1" 100 _ "F" (by with_unfolding_all decide)⟩

/-! ### Claim C8 -/

/-- Claim C8: for an empty historical-metrics set the prompt builder computes
0 for both the mean error rate and the mean p50 latency — the `length > 0`
guard takes the constant-0 branch, so no division by the empty count is
performed; the prompt-building step is a total function. -/
theorem claim_C8_empty_metrics (change : FlagChange) (recentChanges : List FlagChange) :
    (buildPredictionPrompt change [] recentChanges).avgErrorRate = 0
    ∧ (buildPredictionPrompt change [] recentChanges).avgLatency = 0 := by
  constructor <;> rfl

/-! ### Claim C10 -/

/-- Claim C10: the manual analyze-by-id operation, for every existing flag,
runs the prediction + detection pipeline on a synthetic change but never
inserts that change into the flag-change log — the stored change history
after `analyzeFlag` is exactly what it was before the call — whereas a live
change recorded through `recordChange` is appended to the change log before
the same pipeline runs. -/
theorem claim_C10_no_synthetic_change_logged
    (jsonParse : String → Option ParsedResponse) (now : ℕ)
    (changeId errorId latencyId : String) (outcome : AiOutcome)
    (s : AgentState) (flagId : String)
    (s' : AgentState) (flag : FeatureFlag) (p : ImpactPrediction)
    (h : analyzeFlag jsonParse now changeId errorId latencyId outcome s flagId
          = some (s', flag, p)) :
    s'.flag_changes = s.flag_changes
    ∧ ∀ change : FlagChange,
        ((recordChange jsonParse now errorId latencyId outcome s change).1).flag_changes
          = s.flag_changes ++ [change] := by
  constructor
  · cases hfind : s.feature_flags.find? (fun f => decide (f.id = flagId)) with
    | none =>
        rw [analyzeFlag, hfind] at h
        exact absurd h (by simp)
    | some fl =>
        rw [analyzeFlag, hfind] at h
        have hs' : s' =
            (detectAnomalies errorId latencyId now
              (generatePrediction jsonParse now outcome s
                { id := changeId, flagId := fl.id, flagName := fl.name
                  changeType := "enabled", previousValue := none, newValue := some fl
                  changedBy := "manual_analysis", changedAt := now
                  environment := jsOrStr (some fl.targetEnvironment) "development" }).1
              flagId).1 := by
          have := Option.some.inj h
          exact (congrArg (fun t => t.1) this).symm
        rw [hs', detectAnomalies_flag_changes, generatePrediction_flag_changes]
  · intro change
    show ((detectAnomalies errorId latencyId now
        (generatePrediction jsonParse now outcome (recordFlagChange s change) change).1
        change.flagId).1).flag_changes = s.flag_changes ++ [change]
    rw [detectAnomalies_flag_changes, generatePrediction_flag_changes]
    rfl

/-- A stored flag used by the analyze-by-id witness. -/
def flagF : FeatureFlag :=
  { id := "F", name := "flag F", description := "", enabled := true
    rolloutPercentage := 25, targetEnvironment := "production"
    createdAt := 1, updatedAt := 1, tags := [], owner := "team" }

/-- State holding `flagF`, one recorded change, and no metrics. -/
def stateC10 : AgentState :=
  { feature_flags := [flagF], flag_changes := [changeF], impact_metrics := []
    predictions := [], anomalies := [] }

/-- Witness for `claim_C10_no_synthetic_change_logged`: analyzing flag "F"
with a failing model call leaves the one-element change log untouched. -/
theorem claim_C10_no_synthetic_change_logged_witness :
    analyzeFlag jsonParse0 100 "c2" "e1" "l1" AiOutcome.failure stateC10 "F"
      = some (stateC10, flagF,
          { flagId := "F", flagName := "flag F", riskLevel := "medium", riskScore := 50
            predictedImpact :=
              { errorRateChange := 0, latencyChange := 0, userImpactPercentage := 0 }
            recommendations := ["Manual review recommended due to analysis error"]
            reasoning := "Automated analysis unavailable", confidence := 0.3
            generatedAt := 100 })
    ∧ stateC10.flag_changes = [changeF] :=
  ⟨by with_unfolding_all decide,
   by
    have := (claim_C10_no_synthetic_change_logged jsonParse0 100 "c2" "e1" "l1"
      AiOutcome.failure stateC10 "F" stateC10 flagF
      { flagId := "F", flagName := "flag F", riskLevel := "medium", riskScore := 50
        predictedImpact :=
          { errorRateChange := 0, latencyChange := 0, userImpactPercentage := 0 }
        recommendations := ["Manual review recommended due to analysis error"]
        reasoning := "Automated analysis unavailable", confidence := 0.3
        generatedAt := 100 }
      (by with_unfolding_all decide)).1
    exact this.trans rfl⟩

/-! ### Claim C9 -/

/-- In a list sorted descending by `key`, an element found among the first
`n` positions is preceded only by elements with keys at least as large as
the positions before it, so strictly fewer than `n` elements of the whole
list carry a strictly larger key. -/
theorem countP_lt_of_mem_take_sorted {α : Type} (key : α → ℕ) (a : α) :
    ∀ (n : ℕ) (l : List α), List.Sorted (descBy key) l → a ∈ l.take n →
      l.countP (fun b => decide (key a < key b)) < n := by
  intro n l
  induction l generalizing n with
  | nil =>
      intro _ hmem
      simp at hmem
  | cons x xs ih =>
      intro hs hmem
      cases n with
      | zero => simp at hmem
      | succ m =>
          rw [List.take_succ_cons] at hmem
          rw [List.countP_cons]
          rcases List.mem_cons.mp hmem with heq | hmem'
          · subst heq
            have h0 : xs.countP (fun b => decide (key a < key b)) = 0 := by
              rw [List.countP_eq_zero]
              intro b hb
              have hle : key b ≤ key a := List.rel_of_sorted_cons hs b hb
              simp [Nat.not_lt.mpr hle]
            rw [h0]
            simp
          · have hcount := ih m (List.sorted_cons.mp hs).2 hmem'
            have hif : (if decide (key a < key x) = true then 1 else 0) ≤ 1 := by
              split <;> simp
            omega

/-- Claim C9: the anomaly listing (GET /anomalies, and the immediate reply to
an anomaly-subscription request on the WebSocket channel) returns only
anomalies whose resolved flag is false, at most 20 of them, ordered
newest-first by detection timestamp; a resolved anomaly is never included,
and an anomaly with at least 20 strictly newer unresolved anomalies in the
store is never included. -/
theorem claim_C9_anomaly_listing (s : AgentState) :
    (∀ a ∈ getRecentAnomalies s, a.resolved = false)
    ∧ (getRecentAnomalies s).length ≤ 20
    ∧ List.Sorted (descBy (fun a : Anomaly => a.detectedAt)) (getRecentAnomalies s)
    ∧ (∀ a ∈ s.anomalies, a.resolved = true → a ∉ getRecentAnomalies s)
    ∧ (∀ a : Anomaly,
        20 ≤ (s.anomalies.filter
          (fun b => decide (a.detectedAt < b.detectedAt)
            && decide (b.resolved = false))).length →
        a ∉ getRecentAnomalies s)
    ∧ (subscribeAnomaliesReply s).anomalies = getRecentAnomalies s := by
  have hperm : List.Perm
      (List.insertionSort (descBy (fun a : Anomaly => a.detectedAt))
        (s.anomalies.filter (fun a => decide (a.resolved = false))))
      (s.anomalies.filter (fun a => decide (a.resolved = false))) :=
    List.perm_insertionSort _ _
  have hsort : List.Sorted (descBy (fun a : Anomaly => a.detectedAt))
      (List.insertionSort (descBy (fun a : Anomaly => a.detectedAt))
        (s.anomalies.filter (fun a => decide (a.resolved = false)))) :=
    List.sorted_insertionSort _ _
  have hmem_unres : ∀ a ∈ getRecentAnomalies s, a.resolved = false := by
    intro a ha
    have h1 : a ∈ List.insertionSort (descBy (fun a : Anomaly => a.detectedAt))
        (s.anomalies.filter (fun a => decide (a.resolved = false))) :=
      List.mem_of_mem_take ha
    have h2 : a ∈ s.anomalies.filter (fun a => decide (a.resolved = false)) :=
      hperm.mem_iff.mp h1
    simpa using (List.mem_filter.mp h2).2
  refine ⟨hmem_unres, ?_, ?_, ?_, ?_, rfl⟩
  · unfold getRecentAnomalies sortByKeyDesc
    rw [List.length_take]
    exact Nat.min_le_left _ _
  · unfold getRecentAnomalies sortByKeyDesc
    exact List.Pairwise.sublist (List.take_sublist _ _) hsort
  · intro a _ha hres hmem
    have := hmem_unres a hmem
    rw [hres] at this
    exact Bool.noConfusion this
  · intro a h20 hmem
    unfold getRecentAnomalies sortByKeyDesc at hmem
    have hcount := countP_lt_of_mem_take_sorted (fun a : Anomaly => a.detectedAt) a 20
      (List.insertionSort (descBy (fun a : Anomaly => a.detectedAt))
        (s.anomalies.filter (fun a => decide (a.resolved = false)))) hsort hmem
    have hcount' : (List.insertionSort (descBy (fun a : Anomaly => a.detectedAt))
        (s.anomalies.filter (fun a => decide (a.resolved = false)))).countP
          (fun b => decide (a.detectedAt < b.detectedAt)) < 20 := hcount
    have heq1 := hperm.countP_eq (fun b => decide (a.detectedAt < b.detectedAt))
    have heq2 : (s.anomalies.filter (fun x => decide (x.resolved = false))).countP
          (fun b => decide (a.detectedAt < b.detectedAt))
        = s.anomalies.countP
            (fun b => decide (a.detectedAt < b.detectedAt)
              && decide (b.resolved = false)) :=
      List.countP_filter _ _ _
    have heq3 : s.anomalies.countP
          (fun b => decide (a.detectedAt < b.detectedAt) && decide (b.resolved = false))
        = (s.anomalies.filter
            (fun b => decide (a.detectedAt < b.detectedAt)
              && decide (b.resolved = false))).length :=
      List.countP_eq_length_filter _ _
    omega

/-- An old unresolved anomaly in the listing-claim witness state. -/
def anomA : Anomaly :=
  { id := "a1", flagId := "F", flagName := "F", type := AnomalyType.error_spike
    severity := Severity.warning, detectedAt := 10, metrics := mF 1 1 50
    messagePct := 0, resolved := false }

/-- A newer but resolved anomaly in the listing-claim witness state. -/
def anomB : Anomaly :=
  { id := "a2", flagId := "F", flagName := "F", type := AnomalyType.latency_spike
    severity := Severity.critical, detectedAt := 20, metrics := mF 1 1 50
    messagePct := 0, resolved := true }

/-- State holding one unresolved and one resolved anomaly. -/
def stateC9 : AgentState :=
  { feature_flags := [], flag_changes := [], impact_metrics := []
    predictions := [], anomalies := [anomA, anomB] }

/-- Witness for `claim_C9_anomaly_listing`: the resolved newer anomaly is
excluded and the listing is exactly the unresolved one. -/
theorem claim_C9_anomaly_listing_witness :
    anomB ∈ stateC9.anomalies
    ∧ anomB.resolved = true
    ∧ anomB ∉ getRecentAnomalies stateC9
    ∧ getRecentAnomalies stateC9 = [anomA] :=
  ⟨by with_unfolding_all decide, rfl,
   (claim_C9_anomaly_listing stateC9).2.2.2.1 anomB
     (by with_unfolding_all decide) rfl,
   by with_unfolding_all decide⟩

end FlagAnalyzer
